import Mathlib

/-!
Shallow embedding of the task-management backend
(`backend/src`: models/task.py, schemas/task.py, services/task_service.py,
api/tasks.py, api/exceptions.py, api/exception_handlers.py,
api/dependencies.py) and proofs about its CRUD/ownership contract.

Conventions of the embedding:
* timestamps are `Nat` (an abstract clock instant passed in as `now`);
* the database table of tasks is a `List Task` together with the next
  auto-increment primary key (`TaskStore`);
* Python exceptions become an `Except`/sum result; each mutating service
  call returns the resulting store alongside the result, mirroring the
  fact that in the source the session is mutated only after the
  existence/ownership check has succeeded;
* Pydantic request-body validation is modelled by explicit `parse`
  functions on raw input structures; a body rejected by Pydantic is
  turned by FastAPI's default request-validation handling into an
  HTTP 422 response (this framework default is part of the model).
-/

namespace TodoBackend

instance {ε α : Type} [DecidableEq ε] [DecidableEq α] : DecidableEq (Except ε α) := fun a b =>
  match a, b with
  | .error e, .error f => decidable_of_iff (e = f) (by simp)
  | .error _, .ok _ => isFalse (by simp)
  | .ok _, .error _ => isFalse (by simp)
  | .ok x, .ok y => decidable_of_iff (x = y) (by simp)

/-- Python `str.strip()`: remove leading and trailing whitespace. -/
def pyStrip (s : String) : String :=
  ⟨((s.data.dropWhile Char.isWhitespace).reverse.dropWhile Char.isWhitespace).reverse⟩

/-- Row of the `tasks` table (models/task.py `Task`). -/
structure Task where
  id : Nat
  title : String
  description : Option String
  completed : Bool
  user_id : Nat
  created_at : Nat
  updated_at : Nat
deriving Repr, DecidableEq

/-- The persistent store: the `tasks` table plus the auto-increment counter
for the primary key. -/
structure TaskStore where
  tasks : List Task
  nextId : Nat
deriving Repr, DecidableEq

/-- Errors observable at the API boundary. `requestValidation` stands for a
Pydantic request-body rejection (a `ValueError` raised in a field validator or
a violated Field constraint), which FastAPI surfaces through its default
request-validation handler. `validationError` is the custom domain exception
`ValidationError` of api/exceptions.py, whose registered handler returns 400
with code VALIDATION_ERROR. -/
inductive ApiError where
  | requestValidation (msg : String)
  | taskNotFound (task_id : Nat)
  | taskAccessDenied (task_id : Nat) (user_id : Nat)
  | validationError (msg : String)
deriving Repr, DecidableEq

/-- HTTP status produced for each error: 404/403/400 come from the handlers
registered in api/exception_handlers.py and main.py; 422 is FastAPI's default
status for request-body validation failures. -/
def httpStatus : ApiError → Nat
  | .requestValidation _ => 422
  | .taskNotFound _ => 404
  | .taskAccessDenied _ _ => 403
  | .validationError _ => 400

/-- Machine-readable `error_code` field of the response body, per
api/exception_handlers.py; FastAPI's default 422 body carries none. -/
def errorCode : ApiError → Option String
  | .requestValidation _ => none
  | .taskNotFound _ => some "TASK_NOT_FOUND"
  | .taskAccessDenied _ _ => some "TASK_ACCESS_DENIED"
  | .validationError _ => some "VALIDATION_ERROR"

/-! ### Request schemas (schemas/task.py)

Pydantic v2 semantics: for each field, the `Field` constraints
(`min_length`, `max_length`, applied to the raw value) run before the
`field_validator` (default mode, i.e. after-validators). Fields are
validated in declaration order. -/

/-- Validated body of `POST /tasks` (`TaskCreate`). -/
structure TaskCreate where
  title : String
  description : Option String
deriving Repr, DecidableEq

/-- Validated body of `PUT /tasks/id` (`TaskReplace`). -/
structure TaskReplace where
  title : String
  description : Option String
  completed : Bool
deriving Repr, DecidableEq

/-- Validated body of `PATCH /tasks/id` (`TaskUpdate`); `none` means the
field was not supplied. -/
structure TaskUpdate where
  title : Option String
  description : Option String
  completed : Option Bool
deriving Repr, DecidableEq

/-- Raw body of `POST /tasks` before validation. -/
structure TaskCreateInput where
  title : String
  description : Option String
deriving Repr, DecidableEq

/-- Raw body of `PUT /tasks/id` before validation. -/
structure TaskReplaceInput where
  title : String
  description : Option String
  completed : Bool
deriving Repr, DecidableEq

/-- Raw body of `PATCH /tasks/id` before validation. -/
structure TaskUpdateInput where
  title : Option String
  description : Option String
  completed : Option Bool
deriving Repr, DecidableEq

/-- `validate_title` of `TaskCreate`/`TaskReplace`: `if v:` strip and reject
empty-after-strip; an empty string (falsy) passes through unchanged (it is
already rejected earlier by `min_length=1`). -/
def validate_title (v : String) : Except String String :=
  if v ≠ "" then
    if pyStrip v = "" then .error "Title cannot be empty or whitespace only"
    else .ok (pyStrip v)
  else .ok v

/-- `validate_description` of `TaskCreate`: `if v:` strip, and normalize
empty-after-strip to `None`; `None` and the empty string (both falsy) pass
through unchanged. -/
def validate_description : Option String → Option String
  | none => none
  | some v => if v ≠ "" then (if pyStrip v = "" then none else some (pyStrip v)) else some v

/-- Title field of `TaskCreate`/`TaskReplace`: `min_length=1`, `max_length=200`
on the raw value, then `validate_title`. -/
def parse_title (v : String) : Except String String :=
  if v.length < 1 then .error "String should have at least 1 character"
  else if 200 < v.length then .error "String should have at most 200 characters"
  else validate_title v

/-- Description field constraint shared by all three schemas: `max_length=2000`
on the raw value when supplied. -/
def check_description_len (v : Option String) : Except String (Option String) :=
  match v with
  | none => .ok none
  | some d =>
    if 2000 < d.length then .error "String should have at most 2000 characters"
    else .ok (some d)

/-- Validation pipeline of `TaskCreate`: title constraints + `validate_title`,
then description constraint + `validate_description`. -/
def TaskCreate.parse (i : TaskCreateInput) : Except String TaskCreate :=
  match parse_title i.title with
  | .error e => .error e
  | .ok t =>
    match check_description_len i.description with
    | .error e => .error e
    | .ok d => .ok ⟨t, validate_description d⟩

/-- Validation pipeline of `TaskReplace`: same title handling as `TaskCreate`,
but the schema declares no description validator, so the description is kept
exactly as supplied (only the raw `max_length=2000` constraint applies). -/
def TaskReplace.parse (i : TaskReplaceInput) : Except String TaskReplace :=
  match parse_title i.title with
  | .error e => .error e
  | .ok t =>
    match check_description_len i.description with
    | .error e => .error e
    | .ok d => .ok ⟨t, d, i.completed⟩

/-- Title field of `TaskUpdate`: constraints apply only when the field is
supplied; its `validate_title` checks `v is not None`, strips, and rejects
empty-after-strip. -/
def parse_title_opt : Option String → Except String (Option String)
  | none => .ok none
  | some v =>
    if v.length < 1 then .error "String should have at least 1 character"
    else if 200 < v.length then .error "String should have at most 200 characters"
    else if pyStrip v = "" then .error "Title cannot be empty or whitespace only"
    else .ok (some (pyStrip v))

/-- Validation pipeline of `TaskUpdate`: optional trimmed title, description
kept as supplied (no validator in the schema), optional completed flag. -/
def TaskUpdate.parse (i : TaskUpdateInput) : Except String TaskUpdate :=
  match parse_title_opt i.title with
  | .error e => .error e
  | .ok t =>
    match check_description_len i.description with
    | .error e => .error e
    | .ok d => .ok ⟨t, d, i.completed⟩

/-! ### Service layer (services/task_service.py) -/

/-- The `select(Task).where(Task.id == task_id)` + `scalar_one_or_none`
fetch-by-id-alone of `get_task`. -/
def find_by_id (tasks : List Task) (task_id : Nat) : Option Task :=
  tasks.find? (fun t => t.id == task_id)

/-- `TaskService.get_task`: fetch by id alone; absent row raises
`TaskNotFoundError`; foreign owner raises `TaskAccessDeniedError`; else the
row is returned. Read-only: no store is returned. -/
def get_task (s : TaskStore) (task_id user_id : Nat) : Except ApiError Task :=
  match find_by_id s.tasks task_id with
  | none => .error (.taskNotFound task_id)
  | some task =>
    if task.user_id != user_id then .error (.taskAccessDenied task_id user_id)
    else .ok task

/-- `TaskService.create_task`: insert a new row with `completed=False`,
`user_id` = caller, both timestamp columns defaulted to the current instant,
id drawn from the auto-increment counter. -/
def create_task (s : TaskStore) (user_id : Nat) (td : TaskCreate) (now : Nat) :
    Task × TaskStore :=
  let task : Task :=
    { id := s.nextId, title := td.title, description := td.description,
      completed := false, user_id := user_id, created_at := now, updated_at := now }
  (task, { tasks := s.tasks ++ [task], nextId := s.nextId + 1 })

/-- Ordering used by `list_tasks`: `ORDER BY created_at DESC`. -/
def createdDesc (a b : Task) : Prop := b.created_at ≤ a.created_at

instance : DecidableRel createdDesc := fun _ _ => Nat.decLe _ _

instance : IsTotal Task createdDesc := ⟨fun a b => Nat.le_total b.created_at a.created_at⟩

instance : IsTrans Task createdDesc := ⟨fun _ _ _ h1 h2 => Nat.le_trans h2 h1⟩

/-- `TaskService.list_tasks`: `WHERE user_id == caller ORDER BY created_at
DESC`; the sort is modelled by insertion sort on `createdDesc` (ties are
implementation-defined in the source). Read-only. -/
def list_tasks (s : TaskStore) (user_id : Nat) : List Task :=
  List.insertionSort createdDesc (s.tasks.filter (fun t => t.user_id == user_id))

/-- Committing a mutated ORM row: the row with the mutated object's id takes
the new field values. -/
def set_task (tasks : List Task) (t' : Task) : List Task :=
  tasks.map (fun t => if t.id == t'.id then t' else t)

/-- `TaskService.replace_task`: `get_task` for existence+ownership (errors
propagate unchanged, before any field assignment), then overwrite title,
description and completed unconditionally and refresh `updated_at`. -/
def replace_task (s : TaskStore) (task_id user_id : Nat) (td : TaskReplace) (now : Nat) :
    Except ApiError Task × TaskStore :=
  match get_task s task_id user_id with
  | .error e => (.error e, s)
  | .ok task =>
    let task := { task with title := td.title }
    let task := { task with description := td.description }
    let task := { task with completed := td.completed }
    let task := { task with updated_at := now }
    (.ok task, { s with tasks := set_task s.tasks task })

/-- `TaskService.update_task` (PATCH): `get_task` first, then overwrite only
the supplied fields, and refresh `updated_at` unconditionally. -/
def update_task (s : TaskStore) (task_id user_id : Nat) (td : TaskUpdate) (now : Nat) :
    Except ApiError Task × TaskStore :=
  match get_task s task_id user_id with
  | .error e => (.error e, s)
  | .ok task =>
    let task := match td.title with | some t => { task with title := t } | none => task
    let task := match td.description with | some d => { task with description := some d } | none => task
    let task := match td.completed with | some c => { task with completed := c } | none => task
    let task := { task with updated_at := now }
    (.ok task, { s with tasks := set_task s.tasks task })

/-- `TaskService.delete_task`: `get_task` first, then hard-delete the row; the
operation returns no body. -/
def delete_task (s : TaskStore) (task_id user_id : Nat) :
    Except ApiError Unit × TaskStore :=
  match get_task s task_id user_id with
  | .error e => (.error e, s)
  | .ok task => (.ok (), { s with tasks := s.tasks.filter (fun t => t.id != task.id) })

/-! ### API layer (api/tasks.py, api/dependencies.py, main.py) -/

/-- Authentication-relevant parts of an incoming HTTP request: the optional
bearer token of the Authorization header, and the optional `user_id` query
parameter. -/
structure AuthRequest where
  bearer_token : Option String
  query_user_id : Option Nat
deriving Repr, DecidableEq

/-- `get_current_user_id` of api/dependencies.py, the dependency every task
endpoint uses for the acting user id: it reads the `user_id` query parameter
(`Query(...)`, required, so a missing parameter is a 422 request-validation
failure) and returns it as-is. The bearer token is never consulted. -/
def get_current_user_id (r : AuthRequest) : Except ApiError Nat :=
  match r.query_user_id with
  | none => .error (.requestValidation "Field required")
  | some u => .ok u

/-- `POST /tasks`: Pydantic-validate the body (failure is a 422
request-validation error, with the store untouched), then run the service. -/
def api_create (s : TaskStore) (user_id : Nat) (body : TaskCreateInput) (now : Nat) :
    Except ApiError Task × TaskStore :=
  match TaskCreate.parse body with
  | .error m => (.error (.requestValidation m), s)
  | .ok td =>
    let r := create_task s user_id td now
    (.ok r.1, r.2)

/-- `PUT /tasks/id`: Pydantic-validate the body, then run the service. -/
def api_replace (s : TaskStore) (task_id user_id : Nat) (body : TaskReplaceInput) (now : Nat) :
    Except ApiError Task × TaskStore :=
  match TaskReplace.parse body with
  | .error m => (.error (.requestValidation m), s)
  | .ok td => replace_task s task_id user_id td now

/-- `PATCH /tasks/id`: Pydantic-validate the body, then run the service. -/
def api_update (s : TaskStore) (task_id user_id : Nat) (body : TaskUpdateInput) (now : Nat) :
    Except ApiError Task × TaskStore :=
  match TaskUpdate.parse body with
  | .error m => (.error (.requestValidation m), s)
  | .ok td => update_task s task_id user_id td now

/-- HTTP status of `DELETE /tasks/id`: the route declares
`status_code=HTTP_204_NO_CONTENT`, so success is 204 with an empty body;
errors go through the handler mapping. -/
def api_delete_status (s : TaskStore) (task_id user_id : Nat) : Nat :=
  match (delete_task s task_id user_id).1 with
  | .ok _ => 204
  | .error e => httpStatus e

/-- HTTP status of `POST /tasks` (`status_code=HTTP_201_CREATED`). -/
def api_create_status (s : TaskStore) (user_id : Nat) (body : TaskCreateInput) (now : Nat) : Nat :=
  match (api_create s user_id body now).1 with
  | .ok _ => 201
  | .error e => httpStatus e

/-! ### Demo rows and stores, used to instantiate the general theorems -/

/-- Row owned by user 5, created at instant 10. -/
def demoTask1 : Task := ⟨1, "alpha", some "d1", false, 5, 10, 10⟩

/-- Row owned by user 5, created at instant 30. -/
def demoTask2 : Task := ⟨2, "beta", none, false, 5, 30, 30⟩

/-- Row owned by user 5, created at instant 20. -/
def demoTask3 : Task := ⟨3, "gamma", none, true, 5, 20, 20⟩

/-- Row owned by user 7 (a different tenant). -/
def demoTask4 : Task := ⟨4, "delta", some "x", false, 7, 40, 40⟩

/-- Store holding the four demo rows. -/
def demoStore : TaskStore := ⟨[demoTask1, demoTask2, demoTask3, demoTask4], 5⟩

/-- The empty store. -/
def emptyStore : TaskStore := ⟨[], 0⟩

/-! ### Helper lemmas -/

theorem pyStrip_length_le (s : String) : (pyStrip s).length ≤ s.length := by
  have h1 : (pyStrip s).length
      = (((s.data.dropWhile Char.isWhitespace).reverse.dropWhile Char.isWhitespace).reverse).length :=
    rfl
  have h2 : s.length = s.data.length := rfl
  rw [h1, h2, List.length_reverse]
  calc ((s.data.dropWhile Char.isWhitespace).reverse.dropWhile Char.isWhitespace).length
      ≤ (s.data.dropWhile Char.isWhitespace).reverse.length :=
        (List.dropWhile_sublist _).length_le
    _ = (s.data.dropWhile Char.isWhitespace).length := List.length_reverse _
    _ ≤ s.data.length := (List.dropWhile_sublist _).length_le

theorem parse_title_ok {v t : String} (h : parse_title v = .ok t) :
    t = pyStrip v ∧ t ≠ "" := by
  unfold parse_title validate_title at h
  split at h
  · exact absurd h (by simp)
  · rename_i hlen1
    split at h
    · exact absurd h (by simp)
    · split at h
      · split at h
        · exact absurd h (by simp)
        · rename_i hstrip
          injection h with h
          exact ⟨h.symm, h ▸ hstrip⟩
      · rename_i hne
        exfalso
        apply hlen1
        rw [not_not.mp hne]
        decide

theorem parse_title_opt_ok {ov ot : Option String} (h : parse_title_opt ov = .ok ot) :
    (ov = none → ot = none) ∧ ∀ v, ov = some v → ot = some (pyStrip v) ∧ pyStrip v ≠ "" := by
  cases ov with
  | none =>
    simp only [parse_title_opt] at h
    injection h with h
    subst h
    exact ⟨fun _ => rfl, fun v hv => Option.noConfusion hv⟩
  | some v =>
    simp only [parse_title_opt] at h
    refine ⟨fun hc => Option.noConfusion hc, fun w hw => ?_⟩
    injection hw with hw
    subst hw
    split at h
    · exact absurd h (by simp)
    · split at h
      · exact absurd h (by simp)
      · split at h
        · exact absurd h (by simp)
        · rename_i hstrip
          injection h with h
          exact ⟨h.symm, hstrip⟩

theorem check_description_len_ok {v d : Option String} (h : check_description_len v = .ok d) :
    d = v ∧ ∀ x, d = some x → x.length ≤ 2000 := by
  cases v with
  | none =>
    simp only [check_description_len] at h
    injection h with h
    subst h
    exact ⟨rfl, fun x hx => Option.noConfusion hx⟩
  | some s =>
    simp only [check_description_len] at h
    split at h
    · exact absurd h (by simp)
    · rename_i hlen
      injection h with h
      subst h
      refine ⟨rfl, fun x hx => ?_⟩
      injection hx with hx
      subst hx
      exact Nat.not_lt.mp hlen

theorem taskCreate_parse_ok {i : TaskCreateInput} {td : TaskCreate}
    (h : TaskCreate.parse i = .ok td) :
    td.title = pyStrip i.title ∧ td.title ≠ ""
  ∧ td.description = validate_description i.description
  ∧ (∀ x, i.description = some x → x.length ≤ 2000) := by
  unfold TaskCreate.parse at h
  split at h
  · exact absurd h (by simp)
  · rename_i t hpt
    split at h
    · exact absurd h (by simp)
    · rename_i d hd
      injection h with h
      subst h
      obtain ⟨ht1, ht2⟩ := parse_title_ok hpt
      obtain ⟨hd1, hd2⟩ := check_description_len_ok hd
      subst hd1
      exact ⟨ht1, ht2, rfl, hd2⟩

theorem taskReplace_parse_ok {i : TaskReplaceInput} {td : TaskReplace}
    (h : TaskReplace.parse i = .ok td) :
    td.title = pyStrip i.title ∧ td.title ≠ ""
  ∧ td.description = i.description ∧ td.completed = i.completed
  ∧ (∀ x, i.description = some x → x.length ≤ 2000) := by
  unfold TaskReplace.parse at h
  split at h
  · exact absurd h (by simp)
  · rename_i t hpt
    split at h
    · exact absurd h (by simp)
    · rename_i d hd
      injection h with h
      subst h
      obtain ⟨ht1, ht2⟩ := parse_title_ok hpt
      obtain ⟨hd1, hd2⟩ := check_description_len_ok hd
      subst hd1
      exact ⟨ht1, ht2, rfl, rfl, hd2⟩

theorem taskUpdate_parse_ok {i : TaskUpdateInput} {td : TaskUpdate}
    (h : TaskUpdate.parse i = .ok td) :
    (i.title = none → td.title = none)
  ∧ (∀ v, i.title = some v → td.title = some (pyStrip v) ∧ pyStrip v ≠ "")
  ∧ td.description = i.description ∧ td.completed = i.completed
  ∧ (∀ x, i.description = some x → x.length ≤ 2000) := by
  unfold TaskUpdate.parse at h
  split at h
  · exact absurd h (by simp)
  · rename_i t hpt
    split at h
    · exact absurd h (by simp)
    · rename_i d hd
      injection h with h
      subst h
      obtain ⟨ht1, ht2⟩ := parse_title_opt_ok hpt
      obtain ⟨hd1, hd2⟩ := check_description_len_ok hd
      subst hd1
      exact ⟨ht1, ht2, rfl, rfl, hd2⟩

theorem get_task_ok {s : TaskStore} {tid uid : Nat} {t : Task}
    (h : get_task s tid uid = .ok t) :
    t ∈ s.tasks ∧ t.id = tid ∧ t.user_id = uid := by
  unfold get_task at h
  split at h
  · exact absurd h (by simp)
  · rename_i task hf
    split at h
    · exact absurd h (by simp)
    · rename_i hb
      injection h with h
      subst h
      unfold find_by_id at hf
      refine ⟨List.mem_of_find?_eq_some hf, ?_, ?_⟩
      · have hp := List.find?_some hf
        simpa using hp
      · simpa using hb

theorem mem_set_task {tasks : List Task} {t' r' : Task} (h : r' ∈ set_task tasks t') :
    r' = t' ∨ r' ∈ tasks := by
  unfold set_task at h
  obtain ⟨r, hr, he⟩ := List.mem_map.1 h
  by_cases hid : (r.id == t'.id) = true
  · rw [if_pos hid] at he
    exact .inl he.symm
  · rw [if_neg hid] at he
    exact .inr (he ▸ hr)

theorem get_task_not_found {s : TaskStore} {tid uid : Nat}
    (h : find_by_id s.tasks tid = none) :
    get_task s tid uid = .error (.taskNotFound tid) := by
  unfold get_task
  rw [h]

/-! ### Claims -/

/-- C1: for every id-specific operation by an authenticated user the row is
fetched by id alone first; if no row with that id exists the operation fails
with NotFound (HTTP 404, code TASK_NOT_FOUND); otherwise, if the row's
`user_id` differs from the caller, it fails with AccessDenied (HTTP 403, code
TASK_ACCESS_DENIED); only otherwise is the row returned. Existence is decided
before ownership, and replace/patch/delete propagate the two errors of the
get step unchanged. -/
theorem C1_existence_before_ownership (s : TaskStore) (tid uid : Nat)
    (tdR : TaskReplace) (tdU : TaskUpdate) (now : Nat) :
    (find_by_id s.tasks tid = none →
      get_task s tid uid = .error (.taskNotFound tid))
  ∧ (∀ t, find_by_id s.tasks tid = some t → t.user_id ≠ uid →
      get_task s tid uid = .error (.taskAccessDenied tid uid))
  ∧ (∀ t, find_by_id s.tasks tid = some t → t.user_id = uid →
      get_task s tid uid = .ok t)
  ∧ httpStatus (.taskNotFound tid) = 404
  ∧ errorCode (.taskNotFound tid) = some "TASK_NOT_FOUND"
  ∧ httpStatus (.taskAccessDenied tid uid) = 403
  ∧ errorCode (.taskAccessDenied tid uid) = some "TASK_ACCESS_DENIED"
  ∧ (∀ e, get_task s tid uid = .error e →
        (replace_task s tid uid tdR now).1 = .error e
      ∧ (update_task s tid uid tdU now).1 = .error e
      ∧ (delete_task s tid uid).1 = .error e) := by
  refine ⟨?_, ?_, ?_, rfl, rfl, rfl, rfl, ?_⟩
  · intro h
    unfold get_task
    rw [h]
  · intro t ht hne
    unfold get_task
    rw [ht]
    simp [hne]
  · intro t ht heq
    unfold get_task
    rw [ht]
    simp [heq]
  · intro e he
    refine ⟨?_, ?_, ?_⟩
    · unfold replace_task
      rw [he]
    · unfold update_task
      rw [he]
    · unfold delete_task
      rw [he]

theorem C1_existence_before_ownership_witness :
    get_task demoStore 99 5 = .error (.taskNotFound 99)
  ∧ get_task demoStore 4 5 = .error (.taskAccessDenied 4 5)
  ∧ get_task demoStore 1 5 = .ok demoTask1
  ∧ (delete_task demoStore 99 5).1 = .error (.taskNotFound 99) :=
  ⟨(C1_existence_before_ownership demoStore 99 5 ⟨"x", none, true⟩ ⟨none, none, none⟩ 0).1
      (by decide),
   (C1_existence_before_ownership demoStore 4 5 ⟨"x", none, true⟩ ⟨none, none, none⟩ 0).2.1
      demoTask4 (by decide) (by decide),
   (C1_existence_before_ownership demoStore 1 5 ⟨"x", none, true⟩ ⟨none, none, none⟩ 0).2.2.1
      demoTask1 (by decide) (by decide),
   ((C1_existence_before_ownership demoStore 99 5 ⟨"x", none, true⟩ ⟨none, none, none⟩
      0).2.2.2.2.2.2.2 (.taskNotFound 99) (by decide)).2.2⟩

/-- C2 (code bug): every task endpoint obtains the acting user id through
`get_current_user_id` of api/dependencies.py, which reads the `user_id` query
parameter and returns it as-is: a request with no bearer credential and a
caller-chosen id is accepted, and a bearer token, when present, is ignored. -/
theorem C2_user_id_is_caller_chosen_query_param :
    get_current_user_id ⟨none, some 42⟩ = .ok 42
  ∧ get_current_user_id ⟨some "valid-signed-token", some 7⟩ = .ok 7
  ∧ get_current_user_id ⟨some "garbage", some 7⟩ = .ok 7
  ∧ get_current_user_id ⟨some "valid-signed-token", none⟩
      = .error (.requestValidation "Field required") :=
  ⟨rfl, rfl, rfl, rfl⟩

/-- C3 (code bug): a whitespace-only title is rejected by create, replace and
patch, with the store left unchanged, but the rejection is a Pydantic request
validation failure surfaced as HTTP 422 with no error_code, not the domain
`ValidationError` surfaced as HTTP 400 with code VALIDATION_ERROR, which no
service code path ever raises. -/
theorem C3_whitespace_title_rejected_as_422 :
    api_create demoStore 5 ⟨"   ", none⟩ 99
      = (.error (.requestValidation "Title cannot be empty or whitespace only"), demoStore)
  ∧ api_replace demoStore 1 5 ⟨"   ", none, true⟩ 99
      = (.error (.requestValidation "Title cannot be empty or whitespace only"), demoStore)
  ∧ api_update demoStore 1 5 ⟨some "   ", none, none⟩ 99
      = (.error (.requestValidation "Title cannot be empty or whitespace only"), demoStore)
  ∧ httpStatus (.requestValidation "Title cannot be empty or whitespace only") = 422
  ∧ errorCode (.requestValidation "Title cannot be empty or whitespace only") = none
  ∧ api_create_status demoStore 5 ⟨"   ", none⟩ 99 ≠ 400 := by
  decide

/-- C10: whenever replace, patch, or delete fails, the store it returns is
exactly the input store: the existence/ownership check runs before any field
assignment, delete, or commit, so no error path mutates a row. -/
theorem C10_failed_mutation_leaves_store_unchanged (s : TaskStore) (tid uid : Nat)
    (tdR : TaskReplace) (tdU : TaskUpdate) (now : Nat) :
    (∀ e, (replace_task s tid uid tdR now).1 = .error e →
        (replace_task s tid uid tdR now).2 = s)
  ∧ (∀ e, (update_task s tid uid tdU now).1 = .error e →
        (update_task s tid uid tdU now).2 = s)
  ∧ (∀ e, (delete_task s tid uid).1 = .error e →
        (delete_task s tid uid).2 = s) := by
  refine ⟨?_, ?_, ?_⟩
  all_goals intro e he
  · cases hg : get_task s tid uid with
    | error e2 =>
      unfold replace_task
      rw [hg]
    | ok task =>
      unfold replace_task at he
      rw [hg] at he
      simp at he
  · cases hg : get_task s tid uid with
    | error e2 =>
      unfold update_task
      rw [hg]
    | ok task =>
      unfold update_task at he
      rw [hg] at he
      simp at he
  · cases hg : get_task s tid uid with
    | error e2 =>
      unfold delete_task
      rw [hg]
    | ok task =>
      unfold delete_task at he
      rw [hg] at he
      simp at he

/-- C4: replace and patch differ exactly in omission semantics: a successful
patch overwrites each of title/description/completed only when the caller
supplied a value and leaves it unchanged otherwise, while refreshing
updated_at unconditionally even if nothing was supplied; a successful replace
overwrites all three unconditionally, so an omitted description is cleared to
absent. -/
theorem C4_patch_partial_replace_total (s : TaskStore) (tid uid : Nat) (task : Task)
    (h : get_task s tid uid = .ok task) :
    (∀ ot od oc now,
      (update_task s tid uid ⟨ot, od, oc⟩ now).1 =
        .ok { task with
              title := ot.getD task.title,
              description := (match od with | some d => some d | none => task.description),
              completed := oc.getD task.completed,
              updated_at := now })
  ∧ (∀ ti de co now,
      (replace_task s tid uid ⟨ti, de, co⟩ now).1 =
        .ok { task with
              title := ti,
              description := de,
              completed := co,
              updated_at := now }) := by
  constructor
  · intro ot od oc now
    unfold update_task
    rw [h]
    cases ot <;> cases od <;> cases oc <;> rfl
  · intro ti de co now
    unfold replace_task
    rw [h]

theorem C4_patch_partial_replace_total_witness :
    (update_task demoStore 1 5 ⟨none, none, some true⟩ 77).1 =
      .ok ⟨1, "alpha", some "d1", true, 5, 10, 77⟩
  ∧ (replace_task demoStore 1 5 ⟨"X", none, true⟩ 77).1 =
      .ok ⟨1, "X", none, true, 5, 10, 77⟩ := by
  constructor
  · have h := (C4_patch_partial_replace_total demoStore 1 5 demoTask1 (by decide)).1
      none none (some true) 77
    simpa [demoTask1] using h
  · have h := (C4_patch_partial_replace_total demoStore 1 5 demoTask1 (by decide)).2
      "X" none true 77
    simpa [demoTask1] using h

/-- C5: list is read-only and returns exactly the tasks whose user_id equals
the caller's id, ordered by created_at descending: every returned row belongs
to the caller, the output is sorted newest-first and is a permutation of the
caller's rows in the store, a foreign user's task never appears, and on the
demo store with creation instants 10 < 20 < 30 the rows come back newest
first. -/
theorem C5_list_scoped_and_sorted (s : TaskStore) (u : Nat) :
    (∀ t ∈ list_tasks s u, t.user_id = u)
  ∧ List.Sorted createdDesc (list_tasks s u)
  ∧ List.Perm (list_tasks s u) (s.tasks.filter (fun t => t.user_id == u))
  ∧ (∀ t ∈ s.tasks, t.user_id ≠ u → t ∉ list_tasks s u)
  ∧ list_tasks demoStore 5 = [demoTask2, demoTask3, demoTask1] := by
  have hperm : List.Perm (list_tasks s u) (s.tasks.filter (fun t => t.user_id == u)) :=
    List.perm_insertionSort _ _
  have hmem : ∀ t ∈ list_tasks s u, t.user_id = u := by
    intro t ht
    have h1 := hperm.mem_iff.mp ht
    have h2 := (List.mem_filter.mp h1).2
    simpa using h2
  refine ⟨hmem, List.sorted_insertionSort _ _, hperm, ?_, by decide⟩
  intro t _ hne hmem2
  exact hne (hmem t hmem2)

theorem C5_list_scoped_and_sorted_witness : demoTask4 ∉ list_tasks demoStore 5 :=
  (C5_list_scoped_and_sorted demoStore 5).2.2.2.1 demoTask4 (by decide) (by decide)

/-- C6: for every valid create input the returned and persisted task has
completed = false, user_id equal to the caller, a server-generated id (the
store's next auto-increment value), both timestamps set to the creation
instant (so created_at = updated_at at birth), the trimmed title, and a
description equal to the trimmed input whenever that trim is non-empty
(an absent input stays absent); the row is appended to the store and the
route answers 201. -/
theorem C6_create_initial_state (s : TaskStore) (u now : Nat) (i : TaskCreateInput)
    (td : TaskCreate) (hp : TaskCreate.parse i = .ok td) :
    (create_task s u td now).1.completed = false
  ∧ (create_task s u td now).1.user_id = u
  ∧ (create_task s u td now).1.id = s.nextId
  ∧ (create_task s u td now).1.created_at = now
  ∧ (create_task s u td now).1.updated_at = now
  ∧ (create_task s u td now).1.created_at = (create_task s u td now).1.updated_at
  ∧ (create_task s u td now).1.title = pyStrip i.title
  ∧ (create_task s u td now).1.title ≠ ""
  ∧ (i.description = none → (create_task s u td now).1.description = none)
  ∧ (∀ d, i.description = some d → pyStrip d ≠ "" →
      (create_task s u td now).1.description = some (pyStrip d))
  ∧ (create_task s u td now).2.tasks = s.tasks ++ [(create_task s u td now).1]
  ∧ (create_task s u td now).2.nextId = s.nextId + 1
  ∧ (create_task s u td now).1 ∈ (create_task s u td now).2.tasks
  ∧ api_create s u i now = (.ok (create_task s u td now).1, (create_task s u td now).2)
  ∧ api_create_status s u i now = 201 := by
  obtain ⟨hT, hTne, hD, _⟩ := taskCreate_parse_ok hp
  have hapi : api_create s u i now = (.ok (create_task s u td now).1, (create_task s u td now).2) := by
    unfold api_create
    rw [hp]
  refine ⟨rfl, rfl, rfl, rfl, rfl, rfl, hT, hTne, ?_, ?_, rfl, rfl, ?_, hapi, ?_⟩
  · intro hnone
    show td.description = none
    rw [hD, hnone]
    rfl
  · intro d hd hstrip
    have hdne : d ≠ "" := by
      intro hcon
      apply hstrip
      rw [hcon]
      rfl
    show td.description = some (pyStrip d)
    rw [hD, hd]
    simp only [validate_description]
    rw [if_pos hdne, if_neg hstrip]
  · show (create_task s u td now).1 ∈ s.tasks ++ [(create_task s u td now).1]
    simp
  · unfold api_create_status
    rw [hapi]

theorem C6_create_initial_state_witness :
    (create_task emptyStore 1 ⟨"Buy milk", none⟩ 5).1.completed = false :=
  (C6_create_initial_state emptyStore 1 5 ⟨"  Buy milk ", none⟩ ⟨"Buy milk", none⟩
    (by decide)).1

/-- C7 (amended): create trims a supplied non-empty description and stores it
as absent when the trim is empty (a supplied empty string is kept verbatim),
while replace and patch store a supplied description exactly as given, with
no trimming and no normalization to absent; in every schema a stored
description never exceeds 2000 characters. -/
theorem C7_description_normalization (ic : TaskCreateInput) (ir : TaskReplaceInput)
    (iu : TaskUpdateInput) (tc : TaskCreate) (tr : TaskReplace) (tu : TaskUpdate)
    (hc : TaskCreate.parse ic = .ok tc) (hr : TaskReplace.parse ir = .ok tr)
    (hu : TaskUpdate.parse iu = .ok tu) :
    (∀ d, ic.description = some d → d ≠ "" → pyStrip d = "" → tc.description = none)
  ∧ (∀ d, ic.description = some d → pyStrip d ≠ "" → tc.description = some (pyStrip d))
  ∧ tr.description = ir.description
  ∧ tu.description = iu.description
  ∧ (∀ x, tc.description = some x → x.length ≤ 2000)
  ∧ (∀ x, tr.description = some x → x.length ≤ 2000)
  ∧ (∀ x, tu.description = some x → x.length ≤ 2000) := by
  obtain ⟨_, _, hcD, hcLen⟩ := taskCreate_parse_ok hc
  obtain ⟨_, _, hrD, _, hrLen⟩ := taskReplace_parse_ok hr
  obtain ⟨_, _, huD, _, huLen⟩ := taskUpdate_parse_ok hu
  refine ⟨?_, ?_, hrD, huD, ?_, ?_, ?_⟩
  · intro d hd hdne hstrip
    rw [hcD, hd]
    simp only [validate_description]
    rw [if_pos hdne, if_pos hstrip]
  · intro d hd hstrip
    have hdne : d ≠ "" := by
      intro hcon
      apply hstrip
      rw [hcon]
      rfl
    rw [hcD, hd]
    simp only [validate_description]
    rw [if_pos hdne, if_neg hstrip]
  · intro x hx
    rw [hcD] at hx
    cases hid : ic.description with
    | none =>
      rw [hid] at hx
      exact Option.noConfusion hx
    | some d =>
      rw [hid] at hx
      have hdl : d.length ≤ 2000 := hcLen d hid
      simp only [validate_description] at hx
      by_cases hdne : d ≠ ""
      · rw [if_pos hdne] at hx
        by_cases hstrip : pyStrip d = ""
        · rw [if_pos hstrip] at hx
          exact Option.noConfusion hx
        · rw [if_neg hstrip] at hx
          injection hx with hx
          subst hx
          exact le_trans (pyStrip_length_le d) hdl
      · rw [if_neg hdne] at hx
        injection hx with hx
        subst hx
        exact hdl
  · intro x hx
    rw [hrD] at hx
    exact hrLen x hx
  · intro x hx
    rw [huD] at hx
    exact huLen x hx

theorem C7_description_normalization_witness :
    (⟨"t", some "   ", false⟩ : TaskReplace).description
      = (⟨"t", some "   ", false⟩ : TaskReplaceInput).description :=
  (C7_description_normalization ⟨"t", some "  x "⟩ ⟨"t", some "   ", false⟩
    ⟨none, some " y ", none⟩ ⟨"t", some "x"⟩ ⟨"t", some "   ", false⟩
    ⟨none, some " y ", none⟩ (by decide) (by decide) (by decide)).2.2.1

/-- C7 counterexample: replacing a task with the whitespace-only description
string stores that string verbatim in the row (neither trimmed nor normalized
to absent), so the claim that create, replace and patch alike never store an
empty or whitespace-only description is false on the code. -/
theorem C7_counterexample_whitespace_description_stored :
    (api_replace demoStore 1 5 ⟨"X", some "   ", false⟩ 50).2.tasks
      = [⟨1, "X", some "   ", false, 5, 10, 50⟩, demoTask2, demoTask3, demoTask4]
  ∧ TaskReplace.parse ⟨"X", some "   ", false⟩ = .ok ⟨"X", some "   ", false⟩
  ∧ pyStrip "   " = ""
  ∧ some "   " ≠ (none : Option String) := by
  decide

/-- C8: successful replace and patch modify only title, description, completed
and updated_at: every row of the resulting store agrees on id, user_id and
created_at with a row of the input store, and the returned task keeps the
requested id and the caller as owner. -/
theorem C8_identity_fields_immutable (s : TaskStore) (tid uid : Nat)
    (tdR : TaskReplace) (tdU : TaskUpdate) (now : Nat) :
    (∀ r', r' ∈ (replace_task s tid uid tdR now).2.tasks →
        ∃ r, r ∈ s.tasks ∧ r'.id = r.id ∧ r'.user_id = r.user_id
          ∧ r'.created_at = r.created_at)
  ∧ (∀ r', r' ∈ (update_task s tid uid tdU now).2.tasks →
        ∃ r, r ∈ s.tasks ∧ r'.id = r.id ∧ r'.user_id = r.user_id
          ∧ r'.created_at = r.created_at)
  ∧ (∀ t', (replace_task s tid uid tdR now).1 = .ok t' →
        t'.id = tid ∧ t'.user_id = uid)
  ∧ (∀ t', (update_task s tid uid tdU now).1 = .ok t' →
        t'.id = tid ∧ t'.user_id = uid) := by
  refine ⟨?_, ?_, ?_, ?_⟩
  · intro r' hr'
    cases hg : get_task s tid uid with
    | error e =>
      unfold replace_task at hr'
      rw [hg] at hr'
      exact ⟨r', hr', rfl, rfl, rfl⟩
    | ok task =>
      unfold replace_task at hr'
      rw [hg] at hr'
      rcases mem_set_task hr' with he | hm
      · obtain ⟨hmem, _, _⟩ := get_task_ok hg
        exact ⟨task, hmem, by rw [he], by rw [he], by rw [he]⟩
      · exact ⟨r', hm, rfl, rfl, rfl⟩
  · intro r' hr'
    cases hg : get_task s tid uid with
    | error e =>
      unfold update_task at hr'
      rw [hg] at hr'
      exact ⟨r', hr', rfl, rfl, rfl⟩
    | ok task =>
      unfold update_task at hr'
      rw [hg] at hr'
      rcases mem_set_task hr' with he | hm
      · obtain ⟨hmem, _, _⟩ := get_task_ok hg
        refine ⟨task, hmem, ?_, ?_, ?_⟩ <;>
          (rw [he]; cases tdU.title <;> cases tdU.description <;> cases tdU.completed <;> rfl)
      · exact ⟨r', hm, rfl, rfl, rfl⟩
  · intro t' ht'
    cases hg : get_task s tid uid with
    | error e =>
      unfold replace_task at ht'
      rw [hg] at ht'
      simp at ht'
    | ok task =>
      unfold replace_task at ht'
      rw [hg] at ht'
      obtain ⟨_, hid, huid⟩ := get_task_ok hg
      injection ht' with ht'
      constructor
      · rw [← ht']
        exact hid
      · rw [← ht']
        exact huid
  · intro t' ht'
    cases hg : get_task s tid uid with
    | error e =>
      unfold update_task at ht'
      rw [hg] at ht'
      simp at ht'
    | ok task =>
      unfold update_task at ht'
      rw [hg] at ht'
      obtain ⟨_, hid, huid⟩ := get_task_ok hg
      injection ht' with ht'
      constructor
      · rw [← ht']
        cases tdU.title <;> cases tdU.description <;> cases tdU.completed <;> exact hid
      · rw [← ht']
        cases tdU.title <;> cases tdU.description <;> cases tdU.completed <;> exact huid

theorem C8_identity_fields_immutable_witness :
    (⟨1, "X", none, true, 5, 10, 50⟩ : Task).id = 1
  ∧ (⟨1, "X", none, true, 5, 10, 50⟩ : Task).user_id = 5 :=
  (C8_identity_fields_immutable demoStore 1 5 ⟨"X", none, true⟩ ⟨none, none, none⟩
    50).2.2.1 ⟨1, "X", none, true, 5, 10, 50⟩ (by decide)

/-- C9: delete is a hard delete with no tombstone: after a successful delete
of a task id, a get on that same id by any user fails with NotFound, and the
delete itself returns no body, the route answering 204. -/
theorem C9_hard_delete (s : TaskStore) (tid uid : Nat)
    (h : (delete_task s tid uid).1 = .ok ()) :
    (∀ v, get_task (delete_task s tid uid).2 tid v = .error (.taskNotFound tid))
  ∧ api_delete_status s tid uid = 204 := by
  cases hg : get_task s tid uid with
  | error e =>
    unfold delete_task at h
    rw [hg] at h
    simp at h
  | ok task =>
    obtain ⟨_, hid, _⟩ := get_task_ok hg
    constructor
    · intro v
      have hnone : find_by_id (delete_task s tid uid).2.tasks tid = none := by
        unfold delete_task
        rw [hg]
        show find_by_id (s.tasks.filter (fun t => t.id != task.id)) tid = none
        unfold find_by_id
        rw [List.find?_eq_none]
        intro x hx
        have hxf := (List.mem_filter.mp hx).2
        have hxne : x.id ≠ task.id := by simpa using hxf
        simp [hid ▸ hxne]
      exact get_task_not_found hnone
    · unfold api_delete_status
      rw [h]

theorem C9_hard_delete_witness :
    get_task (delete_task demoStore 1 5).2 1 7 = .error (.taskNotFound 1)
  ∧ api_delete_status demoStore 1 5 = 204 :=
  ⟨(C9_hard_delete demoStore 1 5 (by decide)).1 7,
   (C9_hard_delete demoStore 1 5 (by decide)).2⟩

theorem C10_failed_mutation_leaves_store_unchanged_witness :
    (replace_task demoStore 99 5 ⟨"x", none, true⟩ 0).2 = demoStore
  ∧ (update_task demoStore 4 5 ⟨none, none, none⟩ 0).2 = demoStore
  ∧ (delete_task demoStore 99 5).2 = demoStore :=
  ⟨(C10_failed_mutation_leaves_store_unchanged demoStore 99 5 ⟨"x", none, true⟩
      ⟨none, none, none⟩ 0).1 (.taskNotFound 99) (by decide),
   (C10_failed_mutation_leaves_store_unchanged demoStore 4 5 ⟨"x", none, true⟩
      ⟨none, none, none⟩ 0).2.1 (.taskAccessDenied 4 5) (by decide),
   (C10_failed_mutation_leaves_store_unchanged demoStore 99 5 ⟨"x", none, true⟩
      ⟨none, none, none⟩ 0).2.2 (.taskNotFound 99) (by decide)⟩

end TodoBackend
